import Mathlib

/-!
Verification of the Risk-Analyzer scoring engine.

Shallow embedding of the phishing risk-analysis backend
(backend/engine/scorer.py, backend/engine/heuristics.py,
backend/engine/ml_model.py, backend/routers/scan.py,
backend/routers/bulk.py).  Numeric scores are modelled with exact
rationals; the builtin round of Python (banker rounding, ties to
even) is modelled by pyRound.
-/

namespace RiskAnalyzer

/-- Python builtin round on a rational: nearest integer, ties to even. -/
def pyRound (x : ℚ) : ℤ :=
  if x - ⌊x⌋ < 1/2 then ⌊x⌋
  else if 1/2 < x - ⌊x⌋ then ⌊x⌋ + 1
  else if ⌊x⌋ % 2 = 0 then ⌊x⌋ else ⌊x⌋ + 1

/-- Python expression min(100, max(0, n)) used at the end of every score function. -/
def clamp100 (n : ℤ) : ℤ := min 100 (max 0 n)

/-- Python sum over a list of rationals. -/
def sumQ (l : List ℚ) : ℚ := l.foldr (· + ·) 0

/-- Python sum over a list of integers. -/
def sumZ (l : List ℤ) : ℤ := l.foldr (· + ·) 0

/-- Python max over a nonempty list of rationals (0 on empty, never used empty). -/
def maxQ : List ℚ → ℚ
  | [] => 0
  | [x] => x
  | x :: y :: t => max x (maxQ (y :: t))

/-- Python max(gen, default=d) over a list of integers. -/
def pyMaxD (l : List ℤ) (d : ℤ) : ℤ :=
  match l with
  | [] => d
  | x :: t => t.foldl max x

/-- One heuristic indicator record, as the dicts emitted by heuristics.py. -/
structure Indicator where
  name : String
  detected : Bool
  severity : ℚ
  explanation : String
deriving DecidableEq

/-- config.py SAFE_THRESHOLD. -/
def SAFE_THRESHOLD : ℤ := 30

/-- config.py SUSPICIOUS_THRESHOLD. -/
def SUSPICIOUS_THRESHOLD : ℤ := 60

/-- scorer.py _classify_label. -/
def classifyLabel (score : ℤ) : String :=
  if score ≤ SAFE_THRESHOLD then "safe"
  else if score ≤ SUSPICIOUS_THRESHOLD then "suspicious"
  else "dangerous"

/-- Weight table shape used by scorer.py. -/
structure Weights where
  domain : ℚ
  structural : ℚ
  language : ℚ
  api : ℚ
deriving DecidableEq

/-- scorer.py WEIGHTS_FULL: weights when the API layer is available. -/
def WEIGHTS_FULL : Weights := ⟨35/100, 25/100, 20/100, 20/100⟩

/-- scorer.py WEIGHTS_NO_API: redistributed weights when the API layer is unavailable. -/
def WEIGHTS_NO_API : Weights := ⟨44/100, 31/100, 25/100, 0⟩

/-- ML classifier result dict with fields available and probability. -/
structure MlResult where
  available : Bool
  probability : Option ℚ
deriving DecidableEq

/-- Domain-category indicator names from compute_domain_score. -/
def domain_indicator_names : List String :=
  ["IP Address Instead of Domain", "Suspicious Top-Level Domain",
   "Brand Impersonation", "Excessive Subdomains", "URL Shortener Detected"]

/-- Structural-category indicator names from compute_structural_score. -/
def structural_names : List String :=
  ["Excessive URL Length", "@ Symbol in URL", "URL Encoding / Obfuscation",
   "Suspicious Path Keywords", "Missing HTTPS"]

/-- The domain-category indicators that fired. -/
def domainRelevant (inds : List Indicator) : List Indicator :=
  inds.filter (fun i => domain_indicator_names.contains i.name && i.detected)

/-- The structural-category indicators that fired. -/
def structuralRelevant (inds : List Indicator) : List Indicator :=
  inds.filter (fun i => structural_names.contains i.name && i.detected)

/-- Python expression (max_severity * 0.6) + (avg_severity * 0.4) over fired indicators. -/
def blendedSeverityOf (relevant : List Indicator) : ℚ :=
  maxQ (relevant.map (·.severity)) * (6/10) +
    (sumQ (relevant.map (·.severity)) / (relevant.length : ℚ)) * (4/10)

/-- Python expression min(1.0, 0.5 + len(relevant) * 0.2). -/
def countBoostOf (relevant : List Indicator) : ℚ :=
  min 1 ((1/2) + (relevant.length : ℚ) * (2/10))

/-- Python expression blended_severity * 100 * count_boost, 0 when nothing fired. -/
def heuristicScoreOf (relevant : List Indicator) : ℚ :=
  if relevant = [] then 0
  else blendedSeverityOf relevant * 100 * countBoostOf relevant

/-- Truthiness of: ml_result and ml_result.get("available") and
ml_result["probability"] is not None. -/
def mlAvailable (ml : Option MlResult) : Bool :=
  match ml with
  | some m => m.available && m.probability.isSome
  | none => false

/-- The classifier probability when present (0 otherwise; only read when available). -/
def mlProb (ml : Option MlResult) : ℚ :=
  match ml with
  | some m => m.probability.getD 0
  | none => 0

/-- scorer.py compute_domain_score. -/
def compute_domain_score (inds : List Indicator) (ml : Option MlResult) : ℤ :=
  clamp100 (pyRound
    (if mlAvailable ml then
       heuristicScoreOf (domainRelevant inds) * (6/10) + (mlProb ml * 100) * (4/10)
     else heuristicScoreOf (domainRelevant inds)))

/-- scorer.py compute_structural_score. -/
def compute_structural_score (inds : List Indicator) : ℤ :=
  if structuralRelevant inds = [] then 0
  else clamp100 (pyRound (heuristicScoreOf (structuralRelevant inds)))

/-- The detected indicators of a list. -/
def detectedOf (inds : List Indicator) : List Indicator :=
  inds.filter (·.detected)

/-- scorer.py compute_language_score. -/
def compute_language_score (inds : List Indicator) : ℤ :=
  if inds = [] then 0
  else if detectedOf inds = [] then 0
  else clamp100 (pyRound
    (sumQ ((detectedOf inds).map (·.severity)) / ((detectedOf inds).length : ℚ) * 100 *
      min 1 (((detectedOf inds).length : ℚ) * (2/10))))

/-- One reputation feed result dict as read by compute_api_score. -/
structure ApiResult where
  unavailable : Bool
  is_threat : Bool
  confidence : ℚ
deriving DecidableEq

/-- The available feed results: those with not r.get("unavailable", True). -/
def availOf (rs : List ApiResult) : List ApiResult :=
  rs.filter (fun r => !r.unavailable)

/-- The available feed results that flagged a threat. -/
def threatsOf (rs : List ApiResult) : List ApiResult :=
  (availOf rs).filter (·.is_threat)

/-- scorer.py compute_api_score: returns (score, availability). -/
def compute_api_score (rs : List ApiResult) : ℤ × Bool :=
  if availOf rs = [] then (0, false)
  else if threatsOf rs = [] then (0, true)
  else
    (clamp100 (pyRound
      (((threatsOf rs).length : ℚ) / ((availOf rs).length : ℚ) * 60 +
        sumQ ((threatsOf rs).map (·.confidence)) / ((threatsOf rs).length : ℚ) * 40)), true)

/-- The weighted sum inside compute_overall_score. -/
def overallWeighted (d s l a : ℤ) (w : Weights) : ℚ :=
  (d : ℚ) * w.domain + (s : ℚ) * w.structural + (l : ℚ) * w.language + (a : ℚ) * w.api

/-- scorer.py compute_overall_score: weighted overall score and label. -/
def compute_overall_score (d s l a : ℤ) (apiAvailable : Bool) : ℤ × String :=
  (clamp100 (pyRound (overallWeighted d s l a
      (if apiAvailable then WEIGHTS_FULL else WEIGHTS_NO_API))),
   classifyLabel (clamp100 (pyRound (overallWeighted d s l a
      (if apiAvailable then WEIGHTS_FULL else WEIGHTS_NO_API)))))

/-! ## URL heuristics (heuristics.py) -/

/-- Substring occurrence test, Python operator in on strings (char lists). -/
def containsSub (sub : List Char) : List Char → Bool
  | [] => sub.isEmpty
  | c :: t => List.isPrefixOf sub (c :: t) || containsSub sub t

/-- Python str.lower for the ASCII strings handled here. -/
def strLower (s : String) : String := ⟨s.data.map Char.toLower⟩

/-- Split at the first occurrence of a separator, none when absent. -/
def splitFirst (sep : List Char) : List Char → Option (List Char × List Char)
  | [] => if sep.isEmpty then some ([], []) else none
  | c :: t =>
    if List.isPrefixOf sep (c :: t) then some ([], (c :: t).drop sep.length)
    else
      match splitFirst sep t with
      | some (a, b) => some (c :: a, b)
      | none => none

/-- The suffix after the last occurrence of a character (whole list when absent). -/
def afterLastChar (c : Char) (l : List Char) : List Char :=
  (l.reverse.takeWhile (fun x => x ≠ c)).reverse

/-- Split on every occurrence of a character, like Python str.split. -/
def splitAllChar (c : Char) : List Char → List (List Char)
  | [] => [[]]
  | x :: t =>
    if x = c then [] :: splitAllChar c t
    else
      match splitAllChar c t with
      | h :: rt => (x :: h) :: rt
      | [] => [[x]]

/-- The regex from heuristics.py rule 2: a dotted quad of 1-3 digit groups. -/
def isIpHost (host : List Char) : Bool :=
  let parts := splitAllChar '.' host
  parts.length = 4 &&
    parts.all (fun p => 1 ≤ p.length && p.length ≤ 3 && p.all Char.isDigit)

/-- The fields of urllib.parse.urlparse used by heuristics.py. -/
structure ParsedUrl where
  scheme : String
  hostname : String
  path : String

/-- Models urllib.parse.urlparse for the scheme, hostname and path fields of
absolute URLs of the form scheme://host/path; the scheme and hostname are
lowercased and userinfo and port are stripped from the hostname, as in Python.
An input without :// is treated as having no scheme and no netloc. -/
def urlparse (url : String) : ParsedUrl :=
  match splitFirst "://".data url.data with
  | some (schemeChars, rest) =>
    let netloc := rest.takeWhile (fun c => !(c = '/' || c = '?' || c = '#'))
    let tail := rest.drop netloc.length
    let path := tail.takeWhile (fun c => !(c = '?' || c = '#'))
    let host := (afterLastChar '@' netloc).takeWhile (fun c => c ≠ ':')
    ⟨⟨schemeChars.map Char.toLower⟩, ⟨host.map Char.toLower⟩, ⟨path⟩⟩
  | none => ⟨"", "", url⟩

/-- heuristics.py SUSPICIOUS_TLDS. -/
def SUSPICIOUS_TLDS : List String :=
  [".xyz", ".tk", ".ml", ".ga", ".cf", ".gq", ".top", ".buzz",
   ".club", ".work", ".info", ".click", ".link", ".support",
   ".review", ".country", ".stream", ".download", ".racing",
   ".win", ".bid", ".accountant", ".science", ".party"]

/-- heuristics.py SHORTENER_DOMAINS. -/
def SHORTENER_DOMAINS : List String :=
  ["bit.ly", "tinyurl.com", "t.co", "goo.gl", "ow.ly", "is.gd",
   "buff.ly", "rebrand.ly", "cutt.ly", "short.io", "tiny.cc"]

/-- heuristics.py BRAND_TARGETS, in insertion order (Python dicts preserve it). -/
def BRAND_TARGETS : List (String × List String) :=
  [("paypal", ["paypa1", "paypol", "paypaI", "pay-pal", "paypall", "paypal-secure"]),
   ("google", ["go0gle", "googl3", "g00gle", "goog1e", "google-verify"]),
   ("apple", ["app1e", "appie", "apple-id", "appl3"]),
   ("microsoft", ["micros0ft", "mlcrosoft", "microsft", "microsoft-verify"]),
   ("amazon", ["amaz0n", "arnazon", "amazon-secure", "arnazon"]),
   ("netflix", ["netf1ix", "netfllx", "netflix-account"]),
   ("facebook", ["faceb00k", "facebok", "facebook-login"]),
   ("instagram", ["1nstagram", "lnstagram", "instagram-verify"]),
   ("linkedin", ["l1nkedin", "linkedln", "linkedin-verify"]),
   ("chase", ["chas3", "chase-secure", "chase-verify"]),
   ("wellsfargo", ["we11sfargo", "wellsfarg0", "wells-fargo-secure"]),
   ("bankofamerica", ["bankofamer1ca", "bank0famerica"])]

/-- First (brand, variant) pair whose lowercased variant occurs in the lowercased
hostname while the brand itself does not, mirroring the double loop with
break/else/break in heuristics.py rule 8. -/
def findBrandMatch (hostLower : String) : Option (String × String) :=
  BRAND_TARGETS.findSome? fun bv =>
    match bv.2.find? (fun v =>
        containsSub (strLower v).data hostLower.data &&
          !containsSub bv.1.data hostLower.data) with
    | some v => some (bv.1, v)
    | none => none

/-- heuristics.py rule 9 keyword list. -/
def suspicious_paths : List String :=
  ["login", "signin", "verify", "secure", "account", "banking", "update", "confirm"]

/-- heuristics.py analyze_url_heuristics. -/
def analyze_url_heuristics (url : String) : List Indicator :=
  let parsed := urlparse url
  let hostname := parsed.hostname
  let path := parsed.path
  let urlLen := url.length
  let i1 : List Indicator :=
    if urlLen > 75 then
      [⟨"Excessive URL Length", true, min 1 (((urlLen : ℚ) - 75) / 100),
        "This URL is " ++ toString urlLen ++ " characters long. Legitimate URLs are typically shorter. Long URLs can hide malicious paths."⟩]
    else []
  let i2 : List Indicator :=
    if isIpHost hostname.data then
      [⟨"IP Address Instead of Domain", true, 85/100,
        "This URL uses an IP address instead of a domain name. Legitimate websites almost always use domain names."⟩]
    else []
  let i3 : List Indicator :=
    if parsed.scheme = "https" then []
    else
      [⟨"Missing HTTPS", true, 6/10,
        "This URL does not use HTTPS encryption. Most legitimate sites use HTTPS to protect your data."⟩]
  let tld : String :=
    if hostname.data.contains '.' then ⟨'.' :: afterLastChar '.' hostname.data⟩ else ""
  let i4 : List Indicator :=
    if SUSPICIOUS_TLDS.contains (strLower tld) then
      [⟨"Suspicious Top-Level Domain", true, 7/10,
        "The domain uses \x27" ++ tld ++ "\x27 which is commonly associated with phishing and spam websites."⟩]
    else []
  let i5 : List Indicator :=
    if SHORTENER_DOMAINS.contains (strLower hostname) then
      [⟨"URL Shortener Detected", true, 5/10,
        "This URL uses a shortening service which hides the actual destination. The real URL could be malicious."⟩]
    else []
  let subCount : ℕ := if hostname = "" then 0 else hostname.data.count '.' - 1
  let i6 : List Indicator :=
    if subCount ≥ 3 then
      [⟨"Excessive Subdomains", true, min 1 ((subCount : ℚ) * (2/10)),
        "This URL has " ++ toString subCount ++ " subdomains. Phishing sites often use many subdomains to mimic legitimate domains."⟩]
    else []
  let i7 : List Indicator :=
    if url.data.contains '@' then
      [⟨"@ Symbol in URL", true, 9/10,
        "The \x27@\x27 symbol in a URL can redirect you to a different site than what\x27s displayed. This is a common phishing technique."⟩]
    else []
  let i8 : List Indicator :=
    match findBrandMatch (strLower hostname) with
    | some bv =>
      [⟨"Brand Impersonation", true, 95/100,
        "This domain appears to impersonate \x27" ++ bv.1 ++ "\x27 using a lookalike name \x27" ++ bv.2 ++ "\x27. This is a common phishing technique."⟩]
    | none => []
  let inds8 := i1 ++ i2 ++ i3 ++ i4 ++ i5 ++ i6 ++ i7 ++ i8
  let pathLower := strLower path
  let found := suspicious_paths.filter (fun kw => containsSub kw.data pathLower.data)
  let i9 : List Indicator :=
    if !found.isEmpty &&
        inds8.any (fun ind =>
          ["Suspicious Top-Level Domain", "Brand Impersonation", "Missing HTTPS"].contains ind.name) then
      [⟨"Suspicious Path Keywords", true, 6/10,
        "The URL path contains sensitive keywords (" ++ String.intercalate ", " found ++ ") combined with other suspicious signals."⟩]
    else []
  let i10 : List Indicator :=
    if containsSub "%2".data url.data || containsSub "%3".data url.data ||
        containsSub "..".data path.data then
      [⟨"URL Encoding / Obfuscation", true, 7/10,
        "This URL contains encoded or obfuscated characters, which can hide the true destination."⟩]
    else []
  inds8 ++ i9 ++ i10

/-- Core of scan.py scan_url: overall score and label for a URL, given the
reputation feed results (the ML layer is disabled in the code, the email
language score of a plain URL scan is 0). -/
def scan_url_core (url : String) (apiResults : List ApiResult) : ℤ × String :=
  compute_overall_score
    (compute_domain_score (analyze_url_heuristics url) (some ⟨false, none⟩))
    (compute_structural_score (analyze_url_heuristics url))
    0
    (compute_api_score apiResults).1
    (compute_api_score apiResults).2

/-! ## Education generation (scorer.py generate_education) -/

/-- One entry of the educational content table. -/
structure EducationEntry where
  title : String
  content : String
deriving DecidableEq

/-- scorer.py education_map (dict, keys unique, insertion order). -/
def education_map : List (String × EducationEntry) :=
  [("IP Address Instead of Domain",
    ⟨"Why IP addresses in URLs are suspicious",
     "Legitimate websites use domain names (like google.com) not raw IP addresses. If you see numbers like 192.168.1.1 in a URL, it is likely trying to bypass domain-based security filters."⟩),
   ("Suspicious Top-Level Domain",
    ⟨"Understanding domain extensions",
     "Domain extensions like .xyz, .tk, or .ml are inexpensive and commonly used for temporary phishing sites. Trusted sites typically use .com, .org, .gov, or country-specific domains."⟩),
   ("Brand Impersonation",
    ⟨"How to spot fake brand domains",
     "Phishers create domains that look like real brands (e.g., \x27paypa1.com\x27 instead of \x27paypal.com\x27). Always check the domain spelling carefully before entering any information."⟩),
   ("Missing HTTPS",
    ⟨"Why HTTPS matters",
     "HTTPS encrypts your connection. If a site asks for login or payment info without HTTPS (no lock icon), your data could be intercepted. Never enter sensitive information on HTTP sites."⟩),
   ("Urgency Language Detected",
    ⟨"Recognizing pressure tactics",
     "Phishing messages create panic with phrases like \x27Act now!\x27 or \x27Your account will be suspended.\x27 Legitimate companies give you time to respond and never threaten immediate consequences via email."⟩),
   ("Request for Sensitive Information",
    ⟨"When to share personal information",
     "Banks and legitimate services never ask for passwords, credit card numbers, or SSNs via email. If a message asks for this, it is almost certainly a scam."⟩),
   ("URL Shortener Detected",
    ⟨"Hidden destinations behind short links",
     "URL shorteners (bit.ly, tinyurl) hide the real destination. Before clicking, use a URL expander tool to see where the link actually goes."⟩),
   ("Excessive URL Length",
    ⟨"Why long URLs can be suspicious",
     "Extremely long URLs often contain hidden parameters or encoded redirects designed to confuse you and bypass security tools."⟩),
   ("Generic Greeting",
    ⟨"Impersonal messages are a red flag",
     "Emails that start with \x27Dear Customer\x27 instead of your name are often mass-sent phishing attempts. Your bank and other services know your name."⟩),
   ("@ Symbol in URL",
    ⟨"The @ symbol trick in URLs",
     "An \x27@\x27 in a URL tells the browser to ignore everything before it and go to what follows. So \x27http://google.com@evil.com\x27 actually takes you to evil.com."⟩)]

/-- The closing tip appended when label is safe. -/
def safety_tip_safe : EducationEntry :=
  ⟨"Good practice: Always verify before trusting",
   "Even though this appears safe, always verify the sender and URL before entering personal information. Bookmark important sites and access them directly."⟩

/-- The closing tip appended when label is suspicious or dangerous. -/
def safety_tip_alert : EducationEntry :=
  ⟨"What to do with suspicious content",
   "Do not click any links or download attachments. If this claims to be from a company you use, go directly to their website by typing the address yourself. Report the suspicious content to the claimed organization."⟩

/-- The tip list appended at the end of generate_education. -/
def closingTip (label : String) : List EducationEntry :=
  if label == "safe" then [safety_tip_safe]
  else if label == "suspicious" || label == "dangerous" then [safety_tip_alert]
  else []

/-- Dict lookup education_map.get(name). -/
def lookupEducation (name : String) : Option EducationEntry :=
  (education_map.find? (fun kv => kv.1 == name)).map (·.2)

/-- scorer.py generate_education: one entry per detected occurrence whose name
is in the table, then a closing tip. -/
def generate_education (inds : List Indicator) (label : String) : List EducationEntry :=
  ((detectedOf inds).map (·.name)).filterMap lookupEducation ++ closingTip label

/-- Keep the first occurrence of each string, drop later duplicates. -/
def dedupFirstAux (seen : List String) : List String → List String
  | [] => []
  | x :: t =>
    if seen.contains x then dedupFirstAux seen t
    else x :: dedupFirstAux (x :: seen) t

/-- Modelled from the spec: education generation over the deduplicated
(first occurrence wins) detected indicator names, for comparison with the
generate_education from the code. -/
def education_from_spec (inds : List Indicator) (label : String) : List EducationEntry :=
  (dedupFirstAux [] ((detectedOf inds).map (·.name))).filterMap lookupEducation ++
    closingTip label

/-! ## Severity bucketing in the scan responses (routers/scan.py) -/

/-- The severity_label computation repeated in scan_url and scan_email. -/
def severityBucket (sev : ℚ) : String :=
  if sev ≥ 7/10 then "high"
  else if sev ≥ 4/10 then "medium"
  else "low"

/-- One entry of the indicators field of a scan response. -/
structure ReportedIndicator where
  name : String
  severity : String
  explanation : String
deriving DecidableEq

/-- The detected-indicator list built in scan_url (no deduplication). -/
def build_detected_indicators (inds : List Indicator) : List ReportedIndicator :=
  (detectedOf inds).map (fun i => ⟨i.name, severityBucket i.severity, i.explanation⟩)

/-- The detected-indicator list built in scan_email (deduplicated by seen names). -/
def build_detected_indicators_email (seen : List String) :
    List Indicator → List ReportedIndicator
  | [] => []
  | i :: t =>
    if i.detected && !(seen.contains i.name) then
      ⟨i.name, severityBucket i.severity, i.explanation⟩ ::
        build_detected_indicators_email (i.name :: seen) t
    else build_detected_indicators_email seen t

/-! ## Classifier adapter (engine/ml_model.py) -/

/-- config.py MODEL_PATH (path relative to the backend directory). -/
def MODEL_PATH : String := "models/phishing_model.joblib"

/-- The process environment the classifier adapter interacts with: whether the
model file exists, what joblib.load would produce (a model of abstract type M
or a raised exception message), and what feature extraction plus
predict_proba would produce for a model and URL. -/
structure MlEnv (M : Type) where
  modelFileExists : Bool
  loadResult : Except String M
  predictResult : M → String → Except String ℚ

/-- The module-level globals _model, _model_loaded, _model_error. -/
structure ModelState (M : Type) where
  model : Option M
  loaded : Bool
  error : Option String

/-- The globals at process start. -/
def initialModelState (M : Type) : ModelState M := ⟨none, false, none⟩

/-- ml_model.py _load_model; the boolean reports whether the disk was touched
(a load attempt happened). -/
def load_model {M : Type} (env : MlEnv M) (s : ModelState M) : ModelState M × Bool :=
  if s.loaded then (s, false)
  else if env.modelFileExists = false then
    ({ s with
        error := some ("Model file not found at " ++ MODEL_PATH ++ ". Run training/train_model.py first."),
        loaded := true }, true)
  else
    match env.loadResult with
    | Except.ok m => ({ s with model := some m, loaded := true }, true)
    | Except.error e =>
      ({ s with error := some ("Failed to load model: " ++ e), loaded := true }, true)

/-- The result dict of predict_phishing_probability. -/
structure PredictResult where
  probability : Option ℚ
  available : Bool
  error : Option String
deriving DecidableEq

/-- Python round(p, 4), banker rounding at four decimals. -/
def pyRound4 (p : ℚ) : ℚ := (pyRound (p * 10000) : ℚ) / 10000

/-- ml_model.py predict_phishing_probability: new globals, whether a load
attempt happened, and the result dict. -/
def predict_phishing_probability {M : Type} (env : MlEnv M) (s : ModelState M)
    (url : String) : ModelState M × Bool × PredictResult :=
  match load_model env s with
  | (s1, attempted) =>
    match s1.model with
    | none => (s1, attempted, ⟨none, false, s1.error⟩)
    | some m =>
      match env.predictResult m url with
      | Except.ok p => (s1, attempted, ⟨some (pyRound4 p), true, none⟩)
      | Except.error e =>
        (s1, attempted, ⟨none, false, some ("Prediction failed: " ++ e)⟩)

/-- A sequence of predictions within one process, counting load attempts. -/
def runPredicts {M : Type} (env : MlEnv M) : ModelState M → List String → ModelState M × ℕ
  | s, [] => (s, 0)
  | s, u :: us =>
    ((runPredicts env (predict_phishing_probability env s u).1 us).1,
     (if (predict_phishing_probability env s u).2.1 then 1 else 0) +
       (runPredicts env (predict_phishing_probability env s u).1 us).2)

/-! ## Input validation (routers/scan.py, routers/bulk.py) -/

/-- Python whitespace recognised by str.strip (ASCII portion). -/
def pyIsSpace (c : Char) : Bool :=
  c = ' ' || c = '\t' || c = '\n' || c = '\r' || c = '\x0b' || c = '\x0c'

/-- Python str.strip: remove leading and trailing whitespace. -/
def pyStrip (s : String) : String :=
  ⟨((s.data.dropWhile pyIsSpace).reverse.dropWhile pyIsSpace).reverse⟩

/-- scan.py EmailScanRequest.validate_content. -/
def validate_content (v : String) : Except String String :=
  if pyStrip v = "" then Except.error "Email content cannot be empty"
  else if (pyStrip v).length < 10 then
    Except.error "Email content is too short to analyze meaningfully"
  else Except.ok (pyStrip v)

/-- bulk.py BulkScanRequest.validate_urls. -/
def validate_urls (v : List String) : Except String (List String) :=
  if v = [] then Except.error "URL list cannot be empty"
  else if v.length > 10 then Except.error "Maximum 10 URLs per bulk scan"
  else if (v.map pyStrip).filter (fun u => u != "") = [] then
    Except.error "No valid URLs provided"
  else Except.ok ((v.map pyStrip).filter (fun u => u != ""))

/-- scan.py scan_email seen as validation followed by the scoring stage. -/
def scan_email_endpoint {α : Type} (score : String → α) (content : String) :
    Except String α :=
  match validate_content content with
  | Except.error e => Except.error e
  | Except.ok v => Except.ok (score v)

/-! ## Bulk scanning (routers/bulk.py scan_bulk) -/

/-- One per-URL record in the bulk response (only the fields the summary reads,
plus the error fields of the per-item error dict). -/
structure BulkItem where
  overall_score : Option ℤ
  label : String
  scanned_input : String
  error : Option String
deriving DecidableEq

/-- One iteration of the try/except loop in scan_bulk, with the per-URL scan
abstracted as a fallible function returning (overall_score, label). -/
def scanItem (scan : String → Except String (ℤ × String)) (url : String) : BulkItem :=
  match scan url with
  | Except.ok r => ⟨some r.1, r.2, url, none⟩
  | Except.error e => ⟨none, "error", url, some e⟩

/-- bulk.py valid_results: the items with a non-null overall_score. -/
def validResults (items : List BulkItem) : List BulkItem :=
  items.filter (fun r => r.overall_score.isSome)

/-- The summary dict of the bulk response (distribution flattened). -/
structure BulkSummary where
  total : ℕ
  scanned : ℕ
  errors : ℕ
  avg_score : ℤ
  highest_risk : ℤ
  safe : ℕ
  suspicious : ℕ
  dangerous : ℕ
deriving DecidableEq

/-- bulk.py summary computation over the per-item results. -/
def bulkSummaryOf (results : List BulkItem) : BulkSummary :=
  ⟨results.length,
   (validResults results).length,
   results.length - (validResults results).length,
   if validResults results = [] then 0
   else pyRound ((sumZ ((validResults results).filterMap (·.overall_score)) : ℚ) /
     ((validResults results).length : ℚ)),
   pyMaxD ((validResults results).filterMap (·.overall_score)) 0,
   ((validResults results).filter (fun r => r.label == "safe")).length,
   ((validResults results).filter (fun r => r.label == "suspicious")).length,
   ((validResults results).filter (fun r => r.label == "dangerous")).length⟩

/-- bulk.py scan_bulk body after validation. -/
def scan_bulk (scan : String → Except String (ℤ × String)) (urls : List String) :
    BulkSummary × List BulkItem :=
  (bulkSummaryOf (urls.map (scanItem scan)), urls.map (scanItem scan))

/-- The /bulk endpoint: request validation, then the scan loop. -/
def scan_bulk_endpoint (scan : String → Except String (ℤ × String))
    (urls : List String) : Except String (BulkSummary × List BulkItem) :=
  match validate_urls urls with
  | Except.error e => Except.error e
  | Except.ok v => Except.ok (scan_bulk scan v)

/-! ## General lemmas about the rounding and clamping primitives -/

theorem pyRound_intCast (n : ℤ) : pyRound (n : ℚ) = n := by
  unfold pyRound
  rw [Int.floor_intCast]
  rw [if_pos (by norm_num : (n : ℚ) - n < 1/2)]

theorem pyRound_eq_of_lt {x : ℚ} {n : ℤ} (h1 : (n : ℚ) ≤ x) (h2 : x < n + 1/2) :
    pyRound x = n := by
  have hf : ⌊x⌋ = n := Int.floor_eq_iff.mpr ⟨h1, by linarith⟩
  unfold pyRound
  rw [hf, if_pos (by linarith : x - (n : ℚ) < 1/2)]

theorem pyRound_eq_add_one {x : ℚ} {n : ℤ} (h1 : (n : ℚ) + 1/2 < x) (h2 : x < n + 1) :
    pyRound x = n + 1 := by
  have hf : ⌊x⌋ = n := Int.floor_eq_iff.mpr ⟨by linarith, h2⟩
  unfold pyRound
  rw [hf, if_neg (by push_neg; linarith : ¬(x - (n : ℚ) < 1/2)),
    if_pos (by linarith : (1:ℚ)/2 < x - n)]

theorem pyRound_tie (n : ℤ) :
    pyRound ((n : ℚ) + 1/2) = if n % 2 = 0 then n else n + 1 := by
  have hf : ⌊(n : ℚ) + 1/2⌋ = n := Int.floor_eq_iff.mpr ⟨by linarith, by linarith⟩
  unfold pyRound
  rw [hf, show ((n : ℚ) + 1/2 - n) = 1/2 by ring,
    if_neg (by norm_num : ¬((1:ℚ)/2 < 1/2)), if_neg (by norm_num : ¬((1:ℚ)/2 < 1/2))]

theorem pyRound_nonneg {x : ℚ} (h : 0 ≤ x) : 0 ≤ pyRound x := by
  have hf : 0 ≤ ⌊x⌋ := Int.floor_nonneg.mpr h
  unfold pyRound
  split_ifs <;> omega

theorem pyRound_le_int {x : ℚ} {n : ℤ} (h : x ≤ (n : ℚ)) : pyRound x ≤ n := by
  have hfn : ⌊x⌋ ≤ n := by
    have := Int.floor_mono h
    rwa [Int.floor_intCast] at this
  have hfl : ((⌊x⌋ : ℤ) : ℚ) ≤ x := Int.floor_le x
  unfold pyRound
  split_ifs with h1 h2 h3
  · exact hfn
  · have hq : ((⌊x⌋ : ℤ) : ℚ) < (n : ℚ) := by linarith
    have : ⌊x⌋ < n := by exact_mod_cast hq
    omega
  · exact hfn
  · push_neg at h1
    have hq : ((⌊x⌋ : ℤ) : ℚ) < (n : ℚ) := by linarith
    have : ⌊x⌋ < n := by exact_mod_cast hq
    omega

theorem clamp100_bounds (n : ℤ) : 0 ≤ clamp100 n ∧ clamp100 n ≤ 100 := by
  unfold clamp100
  omega

theorem clamp100_of_bounds {n : ℤ} (h0 : 0 ≤ n) (h1 : n ≤ 100) : clamp100 n = n := by
  unfold clamp100
  omega

theorem overallWeighted_full_bounds (d s l a : ℤ)
    (hd0 : 0 ≤ d) (hd1 : d ≤ 100) (hs0 : 0 ≤ s) (hs1 : s ≤ 100)
    (hl0 : 0 ≤ l) (hl1 : l ≤ 100) (ha0 : 0 ≤ a) (ha1 : a ≤ 100) :
    0 ≤ overallWeighted d s l a WEIGHTS_FULL ∧
      overallWeighted d s l a WEIGHTS_FULL ≤ 100 := by
  have hd0q : (0:ℚ) ≤ (d : ℚ) := by exact_mod_cast hd0
  have hd1q : (d : ℚ) ≤ 100 := by exact_mod_cast hd1
  have hs0q : (0:ℚ) ≤ (s : ℚ) := by exact_mod_cast hs0
  have hs1q : (s : ℚ) ≤ 100 := by exact_mod_cast hs1
  have hl0q : (0:ℚ) ≤ (l : ℚ) := by exact_mod_cast hl0
  have hl1q : (l : ℚ) ≤ 100 := by exact_mod_cast hl1
  have ha0q : (0:ℚ) ≤ (a : ℚ) := by exact_mod_cast ha0
  have ha1q : (a : ℚ) ≤ 100 := by exact_mod_cast ha1
  unfold overallWeighted WEIGHTS_FULL
  constructor <;> · simp only
                    linarith

theorem overallWeighted_no_api_bounds (d s l a : ℤ)
    (hd0 : 0 ≤ d) (hd1 : d ≤ 100) (hs0 : 0 ≤ s) (hs1 : s ≤ 100)
    (hl0 : 0 ≤ l) (hl1 : l ≤ 100) :
    0 ≤ overallWeighted d s l a WEIGHTS_NO_API ∧
      overallWeighted d s l a WEIGHTS_NO_API ≤ 100 := by
  have hd0q : (0:ℚ) ≤ (d : ℚ) := by exact_mod_cast hd0
  have hd1q : (d : ℚ) ≤ 100 := by exact_mod_cast hd1
  have hs0q : (0:ℚ) ≤ (s : ℚ) := by exact_mod_cast hs0
  have hs1q : (s : ℚ) ≤ 100 := by exact_mod_cast hs1
  have hl0q : (0:ℚ) ≤ (l : ℚ) := by exact_mod_cast hl0
  have hl1q : (l : ℚ) ≤ 100 := by exact_mod_cast hl1
  unfold overallWeighted WEIGHTS_NO_API
  constructor <;> · simp only
                    nlinarith

/-! ## C1: the overall score -/

/-- C1: compute_overall_score is the weighted sum of the four sub-scores
under the table WEIGHTS_FULL when the reputation layer is available and
WEIGHTS_NO_API otherwise; each table sums to exactly 1; when the API layer is
unavailable the api sub-score contributes exactly 0 (the result does not
depend on it at all); the result is rounded and clamped to [0, 100], and for
sub-scores already in [0, 100] the clamp is the identity. -/
theorem C1_overall_score :
    (WEIGHTS_FULL.domain + WEIGHTS_FULL.structural + WEIGHTS_FULL.language +
        WEIGHTS_FULL.api = 1) ∧
    (WEIGHTS_NO_API.domain + WEIGHTS_NO_API.structural + WEIGHTS_NO_API.language +
        WEIGHTS_NO_API.api = 1) ∧
    (∀ d s l a : ℤ, ∀ avail : Bool,
      (compute_overall_score d s l a avail).1 =
        clamp100 (pyRound (overallWeighted d s l a
          (if avail then WEIGHTS_FULL else WEIGHTS_NO_API)))) ∧
    (∀ d s l a a2 : ℤ,
      compute_overall_score d s l a false = compute_overall_score d s l a2 false) ∧
    (∀ d s l a : ℤ, ∀ avail : Bool,
      0 ≤ d → d ≤ 100 → 0 ≤ s → s ≤ 100 → 0 ≤ l → l ≤ 100 → 0 ≤ a → a ≤ 100 →
      0 ≤ (compute_overall_score d s l a avail).1 ∧
        (compute_overall_score d s l a avail).1 ≤ 100 ∧
        (compute_overall_score d s l a avail).1 =
          pyRound (overallWeighted d s l a
            (if avail then WEIGHTS_FULL else WEIGHTS_NO_API))) := by
  refine ⟨by norm_num [WEIGHTS_FULL], by norm_num [WEIGHTS_NO_API],
    fun d s l a avail => rfl, ?_, ?_⟩
  · intro d s l a a2
    simp [compute_overall_score, overallWeighted, WEIGHTS_NO_API, mul_zero]
  · intro d s l a avail hd0 hd1 hs0 hs1 hl0 hl1 ha0 ha1
    have hb : 0 ≤ overallWeighted d s l a
          (if avail then WEIGHTS_FULL else WEIGHTS_NO_API) ∧
        overallWeighted d s l a (if avail then WEIGHTS_FULL else WEIGHTS_NO_API) ≤ 100 := by
      cases avail
      · simpa using overallWeighted_no_api_bounds d s l a hd0 hd1 hs0 hs1 hl0 hl1
      · simpa using overallWeighted_full_bounds d s l a hd0 hd1 hs0 hs1 hl0 hl1 ha0 ha1
    have hr0 : 0 ≤ pyRound (overallWeighted d s l a
        (if avail then WEIGHTS_FULL else WEIGHTS_NO_API)) := pyRound_nonneg hb.1
    have hb2 : overallWeighted d s l a (if avail then WEIGHTS_FULL else WEIGHTS_NO_API) ≤
        ((100 : ℤ) : ℚ) := by exact_mod_cast hb.2
    have hr1 := pyRound_le_int hb2
    have hcl := clamp100_of_bounds hr0 hr1
    exact ⟨by rw [show (compute_overall_score d s l a avail).1 =
        clamp100 (pyRound (overallWeighted d s l a
          (if avail then WEIGHTS_FULL else WEIGHTS_NO_API))) from rfl, hcl]; exact hr0,
      by rw [show (compute_overall_score d s l a avail).1 =
        clamp100 (pyRound (overallWeighted d s l a
          (if avail then WEIGHTS_FULL else WEIGHTS_NO_API))) from rfl, hcl]; exact hr1,
      by rw [show (compute_overall_score d s l a avail).1 =
        clamp100 (pyRound (overallWeighted d s l a
          (if avail then WEIGHTS_FULL else WEIGHTS_NO_API))) from rfl, hcl]⟩

/-- Witness for C1: the bounded-input part applied at sub-scores 50/50/50/50
with the reputation layer available. -/
theorem C1_overall_score_witness :
    ((0:ℤ) ≤ 50 ∧ (50:ℤ) ≤ 100) ∧ 0 ≤ (compute_overall_score 50 50 50 50 true).1 :=
  ⟨⟨by decide, by decide⟩,
   (C1_overall_score.2.2.2.2 50 50 50 50 true (by decide) (by decide) (by decide)
     (by decide) (by decide) (by decide) (by decide) (by decide)).1⟩

/-! ## C2: the reputation sub-score -/

/-- C2: compute_api_score returns (0, false) when no feed is available,
(0, true) when available feeds exist but none flagged a threat, and otherwise
the clamped rounding of threatRatio*60 + (confidence sum over threat
hits / threatCount)*40 together with availability true; with exactly one
threat at confidence 1 out of 2 available feeds the score is 70. -/
theorem C2_api_score :
    (∀ rs : List ApiResult, availOf rs = [] → compute_api_score rs = (0, false)) ∧
    (∀ rs : List ApiResult, availOf rs ≠ [] → threatsOf rs = [] →
      compute_api_score rs = (0, true)) ∧
    (∀ rs : List ApiResult, threatsOf rs ≠ [] →
      compute_api_score rs =
        (clamp100 (pyRound (((threatsOf rs).length : ℚ) / ((availOf rs).length : ℚ) * 60 +
          sumQ ((threatsOf rs).map (·.confidence)) / ((threatsOf rs).length : ℚ) * 40)),
         true)) ∧
    compute_api_score [⟨false, true, 1⟩, ⟨false, false, 0⟩] = (70, true) := by
  refine ⟨?_, ?_, ?_, ?_⟩
  · intro rs h
    simp [compute_api_score, h]
  · intro rs h1 h2
    simp [compute_api_score, h1, h2]
  · intro rs h
    have ha : availOf rs ≠ [] := by
      intro he
      exact h (by simp [threatsOf, he])
    simp [compute_api_score, ha, h]
  · unfold compute_api_score
    rw [if_neg (by decide :
        ¬(availOf [⟨false, true, 1⟩, ⟨false, false, 0⟩] = []))]
    rw [if_neg (by decide :
        ¬(threatsOf [⟨false, true, 1⟩, ⟨false, false, 0⟩] = []))]
    have hX : ((threatsOf [⟨false, true, 1⟩, ⟨false, false, 0⟩]).length : ℚ) /
          ((availOf [⟨false, true, 1⟩, ⟨false, false, 0⟩]).length : ℚ) * 60 +
          sumQ ((threatsOf [⟨false, true, 1⟩, ⟨false, false, 0⟩]).map (·.confidence)) /
            ((threatsOf [⟨false, true, 1⟩, ⟨false, false, 0⟩]).length : ℚ) * 40 =
          ((70 : ℤ) : ℚ) := by
      rw [show (threatsOf [⟨false, true, 1⟩, ⟨false, false, 0⟩]).map (·.confidence) =
          [1] from rfl,
        show (threatsOf [⟨false, true, 1⟩, ⟨false, false, 0⟩]).length = 1 from rfl,
        show (availOf [⟨false, true, 1⟩, ⟨false, false, 0⟩]).length = 2 from rfl]
      norm_num [sumQ]
    rw [hX, pyRound_intCast]
    decide

/-- Witness for C2: a single unavailable feed gives score 0 and availability
false. -/
theorem C2_api_score_witness :
    availOf [⟨true, false, 0⟩] = [] ∧ compute_api_score [⟨true, false, 0⟩] = (0, false) :=
  ⟨rfl, C2_api_score.1 [⟨true, false, 0⟩] rfl⟩

/-! ## C5: the final rounding step -/

/-- C5 counterexample: the claim says all score functions round
half-away-from-zero, so a pre-rounding value of 0.5 would give 1 and one of
60.5 would give 61.  The code uses the Python builtin round, which rounds
ties to even: a single detected email indicator of severity 1/40 yields the
pre-rounding value 0.5 and the returned language sub-score is 0, and a single
available threat feed with confidence 1/80 yields the pre-rounding value 60.5
and the returned api sub-score is 60. -/
theorem C5_rounding_counterexample :
    pyRound ((1:ℚ)/2) = 0 ∧
    compute_language_score [⟨"Urgency Language Detected", true, 1/40, "e"⟩] = 0 ∧
    compute_api_score [⟨false, true, 1/80⟩] = (60, true) := by
  refine ⟨?_, ?_, ?_⟩
  · rw [show ((1:ℚ)/2) = ((0 : ℤ) : ℚ) + 1/2 by norm_num, pyRound_tie]
    decide
  · unfold compute_language_score
    rw [if_neg (by decide :
        ¬([(⟨"Urgency Language Detected", true, 1/40, "e"⟩ : Indicator)] = []))]
    rw [if_neg (by decide :
        ¬(detectedOf [⟨"Urgency Language Detected", true, 1/40, "e"⟩] = []))]
    have hX : sumQ ((detectedOf [⟨"Urgency Language Detected", true, 1/40, "e"⟩]).map
          (·.severity)) /
          ((detectedOf [⟨"Urgency Language Detected", true, 1/40, "e"⟩]).length : ℚ) * 100 *
          min 1 (((detectedOf [⟨"Urgency Language Detected", true, 1/40, "e"⟩]).length : ℚ) *
            (2/10)) = ((0 : ℤ) : ℚ) + 1/2 := by
      rw [show (detectedOf [⟨"Urgency Language Detected", true, 1/40, "e"⟩]).map
            (·.severity) = [1/40] from rfl,
        show (detectedOf [⟨"Urgency Language Detected", true, 1/40, "e"⟩]).length = 1
          from rfl]
      norm_num [sumQ, min_def]
    rw [hX, pyRound_tie]
    decide
  · unfold compute_api_score
    rw [if_neg (by decide : ¬(availOf [⟨false, true, 1/80⟩] = []))]
    rw [if_neg (by decide : ¬(threatsOf [⟨false, true, 1/80⟩] = []))]
    have hX : ((threatsOf [⟨false, true, 1/80⟩]).length : ℚ) /
          ((availOf [⟨false, true, 1/80⟩]).length : ℚ) * 60 +
          sumQ ((threatsOf [⟨false, true, 1/80⟩]).map (·.confidence)) /
            ((threatsOf [⟨false, true, 1/80⟩]).length : ℚ) * 40 = ((60 : ℤ) : ℚ) + 1/2 := by
      rw [show (threatsOf [⟨false, true, 1/80⟩]).map (·.confidence) = [1/80] from rfl,
        show (threatsOf [⟨false, true, 1/80⟩]).length = 1 from rfl,
        show (availOf [⟨false, true, 1/80⟩]).length = 1 from rfl]
      norm_num [sumQ]
    rw [hX, pyRound_tie]
    decide

/-- C5 amended: every score function rounds at the final step with the Python
builtin round, which is banker rounding: a pre-rounding value of k + 0.5
returns k when k is even and k + 1 when k is odd; so severity 1/8 gives the
pre-rounding language value 2.5 and result 2, and a threat confidence of 3/80
gives the pre-rounding api value 61.5 and result 62. -/
theorem C5_rounding_amended :
    (∀ k : ℕ, pyRound ((k : ℚ) + 1/2) = if k % 2 = 0 then (k : ℤ) else (k : ℤ) + 1) ∧
    compute_language_score [⟨"Urgency Language Detected", true, 1/8, "e"⟩] = 2 ∧
    compute_api_score [⟨false, true, 3/80⟩] = (62, true) := by
  refine ⟨?_, ?_, ?_⟩
  · intro k
    have h := pyRound_tie (k : ℤ)
    rw [show (((k : ℤ)) : ℚ) = ((k : ℕ) : ℚ) by push_cast; ring] at h
    rw [h]
    by_cases hk : k % 2 = 0
    · rw [if_pos (by omega : (k : ℤ) % 2 = 0), if_pos hk]
    · rw [if_neg (by omega : ¬((k : ℤ) % 2 = 0)), if_neg hk]
  · unfold compute_language_score
    rw [if_neg (by decide :
        ¬([(⟨"Urgency Language Detected", true, 1/8, "e"⟩ : Indicator)] = []))]
    rw [if_neg (by decide :
        ¬(detectedOf [⟨"Urgency Language Detected", true, 1/8, "e"⟩] = []))]
    have hX : sumQ ((detectedOf [⟨"Urgency Language Detected", true, 1/8, "e"⟩]).map
          (·.severity)) /
          ((detectedOf [⟨"Urgency Language Detected", true, 1/8, "e"⟩]).length : ℚ) * 100 *
          min 1 (((detectedOf [⟨"Urgency Language Detected", true, 1/8, "e"⟩]).length : ℚ) *
            (2/10)) = ((2 : ℤ) : ℚ) + 1/2 := by
      rw [show (detectedOf [⟨"Urgency Language Detected", true, 1/8, "e"⟩]).map
            (·.severity) = [1/8] from rfl,
        show (detectedOf [⟨"Urgency Language Detected", true, 1/8, "e"⟩]).length = 1
          from rfl]
      norm_num [sumQ, min_def]
    rw [hX, pyRound_tie]
    decide
  · unfold compute_api_score
    rw [if_neg (by decide : ¬(availOf [⟨false, true, 3/80⟩] = []))]
    rw [if_neg (by decide : ¬(threatsOf [⟨false, true, 3/80⟩] = []))]
    have hX : ((threatsOf [⟨false, true, 3/80⟩]).length : ℚ) /
          ((availOf [⟨false, true, 3/80⟩]).length : ℚ) * 60 +
          sumQ ((threatsOf [⟨false, true, 3/80⟩]).map (·.confidence)) /
            ((threatsOf [⟨false, true, 3/80⟩]).length : ℚ) * 40 = ((61 : ℤ) : ℚ) + 1/2 := by
      rw [show (threatsOf [⟨false, true, 3/80⟩]).map (·.confidence) = [3/80] from rfl,
        show (threatsOf [⟨false, true, 3/80⟩]).length = 1 from rfl,
        show (availOf [⟨false, true, 3/80⟩]).length = 1 from rfl]
      norm_num [sumQ]
    rw [hX, pyRound_tie]
    decide

/-! ## Evaluation lemmas for the blended-severity formula -/

theorem heuristicScoreOf_single (i : Indicator) :
    heuristicScoreOf [i] = i.severity * 100 * (7/10) := by
  unfold heuristicScoreOf
  rw [if_neg (List.cons_ne_nil i [])]
  unfold blendedSeverityOf countBoostOf
  norm_num [maxQ, sumQ, min_def]
  ring

theorem heuristicScoreOf_pair (i j : Indicator) :
    heuristicScoreOf [i, j] =
      (max i.severity j.severity * (6/10) + ((i.severity + j.severity)/2) * (4/10)) *
        100 * (9/10) := by
  unfold heuristicScoreOf
  rw [if_neg (List.cons_ne_nil i [j])]
  unfold blendedSeverityOf countBoostOf
  norm_num [maxQ, sumQ, min_def]

theorem heuristicScoreOf_sev_single {rel : List Indicator} {q : ℚ}
    (h : rel.map (·.severity) = [q]) : heuristicScoreOf rel = q * 100 * (7/10) := by
  cases rel with
  | nil => simp at h
  | cons a t =>
    cases t with
    | cons b t2 => simp at h
    | nil =>
      simp at h
      rw [heuristicScoreOf_single, h]

theorem heuristicScoreOf_sev_pair {rel : List Indicator} {q r : ℚ}
    (h : rel.map (·.severity) = [q, r]) :
    heuristicScoreOf rel = (max q r * (6/10) + ((q + r)/2) * (4/10)) * 100 * (9/10) := by
  cases rel with
  | nil => simp at h
  | cons a t =>
    cases t with
    | nil => simp at h
    | cons b t2 =>
      cases t2 with
      | cons c t3 => simp at h
      | nil =>
        simp at h
        rw [heuristicScoreOf_pair, h.1, h.2]

/-! ## C3: the domain sub-score -/

/-- C3: compute_domain_score is 0 when no domain-category indicator fired and
no classifier evidence is available; otherwise it is the clamped rounding of
the blended-severity formula over the fired domain indicators, blended
60/40 with the classifier probability when classifier evidence is available;
on the typosquat URL the Brand Impersonation (0.95) and Suspicious
Top-Level Domain (0.7) indicators fire and the domain sub-score exceeds 80. -/
theorem C3_domain_score :
    (∀ (inds : List Indicator) (ml : Option MlResult),
      domainRelevant inds = [] → mlAvailable ml = false →
      compute_domain_score inds ml = 0) ∧
    (∀ (inds : List Indicator) (ml : Option MlResult), mlAvailable ml = false →
      compute_domain_score inds ml =
        clamp100 (pyRound (heuristicScoreOf (domainRelevant inds)))) ∧
    (∀ (inds : List Indicator) (ml : Option MlResult) (p : ℚ),
      mlAvailable ml = true → mlProb ml = p →
      compute_domain_score inds ml =
        clamp100 (pyRound
          (heuristicScoreOf (domainRelevant inds) * (6/10) + (p * 100) * (4/10)))) ∧
    ((analyze_url_heuristics "http://paypa1-secure.xyz/login/verify").map
        (fun i => (i.name, i.severity)) =
      [("Missing HTTPS", 6/10), ("Suspicious Top-Level Domain", 7/10),
       ("Brand Impersonation", 95/100), ("Suspicious Path Keywords", 6/10)]) ∧
    80 < compute_domain_score
        (analyze_url_heuristics "http://paypa1-secure.xyz/login/verify")
        (some ⟨false, none⟩) := by
  refine ⟨?_, ?_, ?_, rfl, ?_⟩
  · intro inds ml h1 h2
    unfold compute_domain_score
    rw [h2]
    simp only [Bool.false_eq_true, if_false]
    rw [h1, show heuristicScoreOf [] = ((0 : ℤ) : ℚ) from rfl, pyRound_intCast]
    decide
  · intro inds ml h2
    unfold compute_domain_score
    rw [h2]
    simp only [Bool.false_eq_true, if_false]
  · intro inds ml p h1 h2
    subst h2
    unfold compute_domain_score
    rw [h1]
    simp only [if_true]
  · show 80 < clamp100 (pyRound (heuristicScoreOf
      (domainRelevant (analyze_url_heuristics "http://paypa1-secure.xyz/login/verify"))))
    rw [heuristicScoreOf_sev_pair
      (rfl : (domainRelevant
        (analyze_url_heuristics "http://paypa1-secure.xyz/login/verify")).map
          (·.severity) = [7/10, 95/100])]
    rw [show (max (7/10) (95/100) * (6/10) + ((7/10 + 95/100)/2) * (4/10)) * 100 *
        ((9:ℚ)/10) = ((81 : ℤ) : ℚ) by norm_num [max_def], pyRound_intCast]
    decide

/-- Witness for C3: no fired domain indicator and no classifier evidence gives
domain sub-score 0. -/
theorem C3_domain_score_witness :
    domainRelevant [] = [] ∧ mlAvailable none = false ∧
      compute_domain_score [] none = 0 :=
  ⟨rfl, rfl, C3_domain_score.1 [] none rfl rfl⟩

/-! ## C4: the IP-literal example URL -/

theorem scan_url_ip_literal_eval :
    scan_url_core "http://192.168.1.1/banking/login" [] = (43, "suspicious") := by
  have hd : compute_domain_score
      (analyze_url_heuristics "http://192.168.1.1/banking/login")
      (some ⟨false, none⟩) = 60 := by
    show clamp100 (pyRound (heuristicScoreOf
      (domainRelevant (analyze_url_heuristics "http://192.168.1.1/banking/login")))) = 60
    rw [heuristicScoreOf_sev_single
      (rfl : (domainRelevant
        (analyze_url_heuristics "http://192.168.1.1/banking/login")).map
          (·.severity) = [85/100])]
    rw [show ((85:ℚ)/100) * 100 * (7/10) = ((59 : ℤ) : ℚ) + 1/2 by norm_num, pyRound_tie]
    decide
  have hs : compute_structural_score
      (analyze_url_heuristics "http://192.168.1.1/banking/login") = 54 := by
    unfold compute_structural_score
    rw [if_neg (by decide : ¬(structuralRelevant
      (analyze_url_heuristics "http://192.168.1.1/banking/login") = []))]
    rw [heuristicScoreOf_sev_pair
      (rfl : (structuralRelevant
        (analyze_url_heuristics "http://192.168.1.1/banking/login")).map
          (·.severity) = [6/10, 6/10])]
    rw [show (max ((6:ℚ)/10) (6/10) * (6/10) + (((6:ℚ)/10 + 6/10)/2) * (4/10)) * 100 *
        ((9:ℚ)/10) = ((54 : ℤ) : ℚ) by norm_num [max_def], pyRound_intCast]
    decide
  show compute_overall_score
    (compute_domain_score (analyze_url_heuristics "http://192.168.1.1/banking/login")
      (some ⟨false, none⟩))
    (compute_structural_score (analyze_url_heuristics "http://192.168.1.1/banking/login"))
    0 (compute_api_score []).1 (compute_api_score []).2 = (43, "suspicious")
  rw [hd, hs]
  show compute_overall_score 60 54 0 0 false = (43, "suspicious")
  unfold compute_overall_score
  rw [show overallWeighted 60 54 0 0 (if false then WEIGHTS_FULL else WEIGHTS_NO_API) =
    (4314/100 : ℚ) by norm_num [overallWeighted, WEIGHTS_NO_API]]
  rw [pyRound_eq_of_lt (by norm_num : ((43:ℤ) : ℚ) ≤ 4314/100) (by norm_num)]
  decide

/-- C4 counterexample: on http://192.168.1.1/banking/login with no classifier
evidence and no available reputation feed the overall label computed by the
code is "suspicious" (overall score 43), not "dangerous" as the claim
states. -/
theorem C4_ip_label_counterexample :
    (scan_url_core "http://192.168.1.1/banking/login" []).2 ≠ "dangerous" := by
  rw [scan_url_ip_literal_eval]
  decide

/-- C4 amended: on http://192.168.1.1/banking/login the heuristic analysis
fires exactly IP-literal (0.85), missing-HTTPS (0.6) and
suspicious-path-keywords (0.6), and with no classifier evidence and no
available reputation feed the overall score is 43 and the label is
"suspicious" under the default thresholds. -/
theorem C4_ip_example_amended :
    ((analyze_url_heuristics "http://192.168.1.1/banking/login").map
        (fun i => (i.name, i.severity)) =
      [("IP Address Instead of Domain", 85/100), ("Missing HTTPS", 6/10),
       ("Suspicious Path Keywords", 6/10)]) ∧
    scan_url_core "http://192.168.1.1/banking/login" [] = (43, "suspicious") ∧
    (∀ rs : List ApiResult, availOf rs = [] →
      (scan_url_core "http://192.168.1.1/banking/login" rs).2 = "suspicious") := by
  refine ⟨rfl, scan_url_ip_literal_eval, ?_⟩
  intro rs h
  have hapi : compute_api_score rs = (0, false) := by simp [compute_api_score, h]
  unfold scan_url_core
  rw [hapi]
  show (scan_url_core "http://192.168.1.1/banking/login" []).2 = "suspicious"
  rw [scan_url_ip_literal_eval]

/-- Witness for C4: the no-available-feed part applied to the empty feed
list. -/
theorem C4_ip_example_witness :
    availOf [] = [] ∧
      (scan_url_core "http://192.168.1.1/banking/login" []).2 = "suspicious" :=
  ⟨rfl, C4_ip_example_amended.2.2 [] rfl⟩

/-! ## C6: education generation -/

theorem dedupFirstAux_eq_of_nodup :
    ∀ (l seen : List String), l.Nodup → (∀ x ∈ l, x ∉ seen) →
      dedupFirstAux seen l = l := by
  intro l
  induction l with
  | nil => intro seen _ _; rfl
  | cons x t ih =>
    intro seen hnd hs
    have hc : seen.contains x = false := by
      rw [Bool.eq_false_iff]
      intro hc
      exact (hs x (List.mem_cons_self x t)) (List.elem_iff.mp hc)
    unfold dedupFirstAux
    rw [hc]
    simp only [Bool.false_eq_true, if_false]
    congr 1
    apply ih (x :: seen) (List.nodup_cons.mp hnd).2
    intro y hy
    intro hmem
    rcases List.mem_cons.mp hmem with rfl | hmem2
    · exact (List.nodup_cons.mp hnd).1 hy
    · exact hs y (List.mem_cons_of_mem x hy) hmem2

set_option maxRecDepth 4000 in
/-- C6 counterexample: the claim says uniquely-named detected indicators are
deduplicated (first occurrence wins); on a list where the detected
Missing HTTPS indicator occurs twice, generate_education emits its table entry
twice, differing from the deduplicated education of the spec. -/
theorem C6_education_counterexample :
    generate_education
        [⟨"Missing HTTPS", true, 6/10, "e"⟩, ⟨"Missing HTTPS", true, 6/10, "e"⟩] "safe" ≠
      education_from_spec
        [⟨"Missing HTTPS", true, 6/10, "e"⟩, ⟨"Missing HTTPS", true, 6/10, "e"⟩] "safe" := by
  decide

/-- C6 amended: generate_education maps every detected indicator occurrence,
in order and without deduplication (duplicate names yield duplicate entries),
to its entry in the fixed table, silently skipping any name absent from the
table, and appends exactly one closing tip: the verify-before-trusting tip
when label is safe, the do-not-click tip when label is suspicious or
dangerous; it agrees with the deduplicated reading of the spec exactly when
the detected names are already unique. -/
theorem C6_education_amended :
    (∀ (inds : List Indicator) (label : String),
      ((detectedOf inds).map (·.name)).Nodup →
      generate_education inds label = education_from_spec inds label) ∧
    (∀ inds : List Indicator,
      generate_education inds "safe" =
        ((detectedOf inds).map (·.name)).filterMap lookupEducation ++ [safety_tip_safe]) ∧
    (∀ (inds : List Indicator) (label : String),
      label = "suspicious" ∨ label = "dangerous" →
      generate_education inds label =
        ((detectedOf inds).map (·.name)).filterMap lookupEducation ++ [safety_tip_alert]) ∧
    (∀ name : String, lookupEducation name = none →
      ∀ (sev : ℚ) (expl : String) (inds : List Indicator) (label : String),
        generate_education (⟨name, true, sev, expl⟩ :: inds) label =
          generate_education inds label) := by
  refine ⟨?_, fun inds => rfl, ?_, ?_⟩
  · intro inds label h
    unfold generate_education education_from_spec
    rw [dedupFirstAux_eq_of_nodup _ [] h (fun x _ => List.not_mem_nil x)]
  · intro inds label h
    rcases h with rfl | rfl <;> rfl
  · intro name h sev expl inds label
    unfold generate_education
    simp [detectedOf, List.filter_cons, List.filterMap_cons, h]

/-- Witness for C6: on a single detected Missing HTTPS indicator (unique
names) the code agrees with the deduplicated education of the spec. -/
theorem C6_education_witness :
    ((detectedOf [⟨"Missing HTTPS", true, 6/10, "e"⟩]).map (·.name)).Nodup ∧
      generate_education [⟨"Missing HTTPS", true, 6/10, "e"⟩] "safe" =
        education_from_spec [⟨"Missing HTTPS", true, 6/10, "e"⟩] "safe" :=
  ⟨by decide, C6_education_amended.1 [⟨"Missing HTTPS", true, 6/10, "e"⟩] "safe" (by decide)⟩

/-! ## C7: the classifier adapter -/

theorem load_model_of_loaded {M : Type} (env : MlEnv M) (s : ModelState M)
    (h : s.loaded = true) : load_model env s = (s, false) := by
  unfold load_model
  rw [if_pos h]

theorem load_model_loads {M : Type} (env : MlEnv M) (s : ModelState M) :
    ((load_model env s).1).loaded = true := by
  unfold load_model
  by_cases h1 : s.loaded = true
  · rw [if_pos h1]; exact h1
  · rw [if_neg h1]
    by_cases h2 : env.modelFileExists = false
    · rw [if_pos h2]
    · rw [if_neg h2]
      cases henv : env.loadResult with
      | ok m => rfl
      | error e => rfl

theorem predict_state_eq {M : Type} (env : MlEnv M) (s : ModelState M) (url : String) :
    (predict_phishing_probability env s url).1 = (load_model env s).1 := by
  unfold predict_phishing_probability
  rcases h : load_model env s with ⟨s1, att⟩
  cases hm : s1.model with
  | none => simp [hm]
  | some m => cases hp : env.predictResult m url <;> simp [hm, hp]

theorem predict_of_loaded {M : Type} (env : MlEnv M) (s : ModelState M) (url : String)
    (h : s.loaded = true) :
    ∃ r, predict_phishing_probability env s url = (s, false, r) := by
  unfold predict_phishing_probability
  rw [load_model_of_loaded env s h]
  cases hm : s.model with
  | none =>
    refine ⟨⟨none, false, s.error⟩, ?_⟩
    simp [hm]
  | some m =>
    cases hp : env.predictResult m url with
    | ok p =>
      refine ⟨⟨some (pyRound4 p), true, none⟩, ?_⟩
      simp [hm, hp]
    | error e =>
      refine ⟨⟨none, false, some ("Prediction failed: " ++ e)⟩, ?_⟩
      simp [hm, hp]

theorem runPredicts_of_loaded {M : Type} (env : MlEnv M) :
    ∀ (us : List String) (s : ModelState M), s.loaded = true →
      runPredicts env s us = (s, 0) := by
  intro us
  induction us with
  | nil => intro s _; rfl
  | cons u t ih =>
    intro s h
    unfold runPredicts
    obtain ⟨r, hr⟩ := predict_of_loaded env s u h
    rw [hr]
    simp only []
    rw [ih s h]
    norm_num

theorem runPredicts_attempts {M : Type} (env : MlEnv M) (urls : List String) :
    (runPredicts env (initialModelState M) urls).2 ≤ 1 := by
  cases urls with
  | nil => simp [runPredicts]
  | cons u t =>
    unfold runPredicts
    rcases hp : predict_phishing_probability env (initialModelState M) u with ⟨s1, att, r⟩
    have hs1 : s1.loaded = true := by
      have hl := predict_state_eq env (initialModelState M) u
      rw [hp] at hl
      rw [show s1 = (load_model env (initialModelState M)).1 from hl]
      exact load_model_loads env (initialModelState M)
    simp only []
    rw [runPredicts_of_loaded env t s1 hs1]
    cases att <;> simp

/-- C7: the classifier adapter never retries a failed load and never raises:
loading with the loaded flag set is a no-op that touches nothing; every
prediction leaves the loaded flag set; over any sequence of predictions in
one process the disk is touched at most once; a missing model file and a
deserialization failure each produce the cached error state and a result
with probability none, available false and a descriptive error; a prediction
failure produces probability none, available false and an error; and every
call in the cached-failure state returns the cached failure without a load
attempt. -/
theorem C7_classifier_adapter :
    (∀ (M : Type) (env : MlEnv M) (s : ModelState M), s.loaded = true →
      load_model env s = (s, false)) ∧
    (∀ (M : Type) (env : MlEnv M) (s : ModelState M) (url : String),
      ((predict_phishing_probability env s url).1).loaded = true) ∧
    (∀ (M : Type) (env : MlEnv M) (urls : List String),
      (runPredicts env (initialModelState M) urls).2 ≤ 1) ∧
    (∀ (M : Type) (env : MlEnv M) (url : String), env.modelFileExists = false →
      predict_phishing_probability env (initialModelState M) url =
        (⟨none, true, some ("Model file not found at " ++ MODEL_PATH ++
            ". Run training/train_model.py first.")⟩, true,
         ⟨none, false, some ("Model file not found at " ++ MODEL_PATH ++
            ". Run training/train_model.py first.")⟩)) ∧
    (∀ (M : Type) (env : MlEnv M) (url : String) (e : String),
      env.modelFileExists = true → env.loadResult = Except.error e →
      predict_phishing_probability env (initialModelState M) url =
        (⟨none, true, some ("Failed to load model: " ++ e)⟩, true,
         ⟨none, false, some ("Failed to load model: " ++ e)⟩)) ∧
    (∀ (M : Type) (env : MlEnv M) (s : ModelState M) (url : String) (m : M) (e : String),
      s.loaded = true → s.model = some m → env.predictResult m url = Except.error e →
      (predict_phishing_probability env s url).2.2 =
        ⟨none, false, some ("Prediction failed: " ++ e)⟩) ∧
    (∀ (M : Type) (env : MlEnv M) (s : ModelState M) (url : String),
      s.loaded = true → s.model = none →
      predict_phishing_probability env s url = (s, false, ⟨none, false, s.error⟩)) := by
  refine ⟨fun M env s h => load_model_of_loaded env s h,
    fun M env s url => by
      rw [predict_state_eq]
      exact load_model_loads env s,
    fun M env urls => runPredicts_attempts env urls, ?_, ?_, ?_, ?_⟩
  · intro M env url h
    unfold predict_phishing_probability load_model initialModelState
    simp [h]
  · intro M env url e h1 h2
    unfold predict_phishing_probability load_model initialModelState
    simp [h1, h2]
  · intro M env s url m e h1 h2 h3
    unfold predict_phishing_probability
    rw [load_model_of_loaded env s h1]
    simp [h2, h3]
  · intro M env s url h1 h2
    unfold predict_phishing_probability
    rw [load_model_of_loaded env s h1]
    simp [h2]

/-- Witness for C7: a cached load failure (loaded, no model, cached error) is
returned unchanged with no load attempt. -/
theorem C7_classifier_adapter_witness :
    ((⟨none, true, some "cached"⟩ : ModelState Unit).loaded = true) ∧
    predict_phishing_probability
        (⟨false, Except.error "e", fun _ _ => Except.error "f"⟩ : MlEnv Unit)
        ⟨none, true, some "cached"⟩ "http://x" =
      (⟨none, true, some "cached"⟩, false, ⟨none, false, some "cached"⟩) :=
  ⟨rfl, C7_classifier_adapter.2.2.2.2.2.2 Unit
    ⟨false, Except.error "e", fun _ _ => Except.error "f"⟩
    ⟨none, true, some "cached"⟩ "http://x" rfl rfl⟩

/-! ## C8: input validation -/

theorem validate_content_error_of_short {s : String}
    (h : (pyStrip s).length < 10) :
    ∃ e, validate_content s = Except.error e ∧ e ≠ "" := by
  unfold validate_content
  by_cases h0 : pyStrip s = ""
  · rw [if_pos h0]
    exact ⟨_, rfl, by decide⟩
  · rw [if_neg h0, if_pos h]
    exact ⟨_, rfl, by decide⟩

/-- C8: an email scan whose content is empty or shorter than 10 characters
after trimming is rejected with a nonempty reason and the scoring stage never
runs (the endpoint result does not depend on it); content of exactly 10
characters after trimming is accepted; a bulk request with an empty URL list
or more than 10 URLs is rejected before any per-URL scan runs (the endpoint
result does not depend on the scan function). -/
theorem C8_input_validation :
    (∀ s : String, pyStrip s = "" ∨ (pyStrip s).length < 10 →
      ∃ e, validate_content s = Except.error e ∧ e ≠ "") ∧
    (∀ s : String, (pyStrip s).length = 10 →
      validate_content s = Except.ok (pyStrip s)) ∧
    (∀ (α : Type) (f g : String → α) (s : String), (pyStrip s).length < 10 →
      scan_email_endpoint f s = scan_email_endpoint g s) ∧
    (validate_urls [] = Except.error "URL list cannot be empty") ∧
    (∀ urls : List String, urls.length > 10 →
      validate_urls urls = Except.error "Maximum 10 URLs per bulk scan") ∧
    (∀ (scan1 scan2 : String → Except String (ℤ × String)) (urls : List String),
      urls = [] ∨ urls.length > 10 →
      scan_bulk_endpoint scan1 urls = scan_bulk_endpoint scan2 urls) := by
  have hbig : ∀ urls : List String, urls.length > 10 →
      validate_urls urls = Except.error "Maximum 10 URLs per bulk scan" := by
    intro urls h
    have h0 : urls ≠ [] := by
      intro he
      rw [he] at h
      simp at h
    unfold validate_urls
    rw [if_neg h0, if_pos h]
  refine ⟨?_, ?_, ?_, rfl, hbig, ?_⟩
  · intro s h
    apply validate_content_error_of_short
    rcases h with h | h
    · rw [h]
      decide
    · exact h
  · intro s h
    unfold validate_content
    rw [if_neg (by intro he; rw [he] at h; simp at h),
      if_neg (by omega : ¬((pyStrip s).length < 10))]
  · intro α f g s h
    obtain ⟨e, he, _⟩ := validate_content_error_of_short h
    unfold scan_email_endpoint
    rw [he]
  · intro scan1 scan2 urls h
    rcases h with rfl | h
    · rfl
    · unfold scan_bulk_endpoint
      rw [hbig urls h]

/-- Witness for C8: a 2-character email is rejected, a 10-character one is
accepted, and an 11-URL bulk request is rejected. -/
theorem C8_input_validation_witness :
    ((pyStrip "  hi  " = "" ∨ (pyStrip "  hi  ").length < 10) ∧
      ∃ e, validate_content "  hi  " = Except.error e ∧ e ≠ "") ∧
    validate_content "0123456789" = Except.ok "0123456789" ∧
    validate_urls ["a", "b", "c", "d", "e", "f", "g", "h", "i", "j", "k"] =
      Except.error "Maximum 10 URLs per bulk scan" :=
  ⟨⟨Or.inr (by decide), C8_input_validation.1 "  hi  " (Or.inr (by decide))⟩,
   C8_input_validation.2.1 "0123456789" (by decide),
   C8_input_validation.2.2.2.2.1 ["a", "b", "c", "d", "e", "f", "g", "h", "i", "j", "k"]
     (by decide)⟩

/-! ## C9: bulk scanning -/

theorem validResults_cons (x : BulkItem) (l : List BulkItem) :
    validResults (x :: l) =
      if x.overall_score.isSome then x :: validResults l else validResults l := by
  simp [validResults, List.filter_cons]

theorem bulk_scores_eq (scan : String → Except String (ℤ × String)) :
    ∀ urls : List String,
      (validResults (urls.map (scanItem scan))).filterMap (·.overall_score) =
        (urls.filterMap (fun u => (scan u).toOption)).map (·.1) := by
  intro urls
  induction urls with
  | nil => rfl
  | cons u t ih =>
    cases hu : scan u with
    | ok r =>
      have hsi : scanItem scan u = ⟨some r.1, r.2, u, none⟩ := by
        unfold scanItem
        rw [hu]
      have hip : (⟨some r.1, r.2, u, none⟩ : BulkItem).overall_score.isSome = true := rfl
      have hConsR : List.filterMap (fun u => (scan u).toOption) (u :: t) =
          r :: List.filterMap (fun u => (scan u).toOption) t :=
        List.filterMap_cons_some (by show (scan u).toOption = some r; rw [hu]; rfl)
      have hConsL : List.filterMap (fun x : BulkItem => x.overall_score)
          ((⟨some r.1, r.2, u, none⟩ : BulkItem) :: validResults (t.map (scanItem scan))) =
          r.1 :: List.filterMap (fun x : BulkItem => x.overall_score)
            (validResults (t.map (scanItem scan))) :=
        List.filterMap_cons_some rfl
      rw [List.map_cons, hsi, validResults_cons, if_pos hip, hConsL, hConsR,
        List.map_cons, ih]
    | error e =>
      have hsi : scanItem scan u = ⟨none, "error", u, some e⟩ := by
        unfold scanItem
        rw [hu]
      have hConsR : List.filterMap (fun u => (scan u).toOption) (u :: t) =
          List.filterMap (fun u => (scan u).toOption) t :=
        List.filterMap_cons_none (by show (scan u).toOption = none; rw [hu]; rfl)
      rw [List.map_cons, hsi, validResults_cons, if_neg (by simp), hConsR]
      exact ih

theorem bulk_label_count_eq (scan : String → Except String (ℤ × String)) (lbl : String) :
    ∀ urls : List String,
      ((validResults (urls.map (scanItem scan))).filter (fun r => r.label == lbl)).length =
        ((urls.filterMap (fun u => (scan u).toOption)).filter (fun r => r.2 == lbl)).length := by
  intro urls
  induction urls with
  | nil => rfl
  | cons u t ih =>
    cases hu : scan u with
    | ok r =>
      have hsi : scanItem scan u = ⟨some r.1, r.2, u, none⟩ := by
        unfold scanItem
        rw [hu]
      have hip : (⟨some r.1, r.2, u, none⟩ : BulkItem).overall_score.isSome = true := rfl
      have hConsR : List.filterMap (fun u => (scan u).toOption) (u :: t) =
          r :: List.filterMap (fun u => (scan u).toOption) t :=
        List.filterMap_cons_some (by show (scan u).toOption = some r; rw [hu]; rfl)
      rw [List.map_cons, hsi, validResults_cons, if_pos hip, hConsR,
        List.filter_cons, List.filter_cons]
      by_cases hb : (r.2 == lbl) = true
      · rw [if_pos hb, if_pos hb]
        simp [ih]
      · rw [if_neg hb, if_neg hb]
        exact ih
    | error e =>
      have hsi : scanItem scan u = ⟨none, "error", u, some e⟩ := by
        unfold scanItem
        rw [hu]
      have hConsR : List.filterMap (fun u => (scan u).toOption) (u :: t) =
          List.filterMap (fun u => (scan u).toOption) t :=
        List.filterMap_cons_none (by show (scan u).toOption = none; rw [hu]; rfl)
      rw [List.map_cons, hsi, validResults_cons, if_neg (by simp), hConsR]
      exact ih

theorem bulk_valid_len_eq (scan : String → Except String (ℤ × String)) :
    ∀ urls : List String,
      (validResults (urls.map (scanItem scan))).length =
        (urls.filterMap (fun u => (scan u).toOption)).length := by
  intro urls
  induction urls with
  | nil => rfl
  | cons u t ih =>
    cases hu : scan u with
    | ok r =>
      have hsi : scanItem scan u = ⟨some r.1, r.2, u, none⟩ := by
        unfold scanItem
        rw [hu]
      have hip : (⟨some r.1, r.2, u, none⟩ : BulkItem).overall_score.isSome = true := rfl
      have hConsR : List.filterMap (fun u => (scan u).toOption) (u :: t) =
          r :: List.filterMap (fun u => (scan u).toOption) t :=
        List.filterMap_cons_some (by show (scan u).toOption = some r; rw [hu]; rfl)
      rw [List.map_cons, hsi, validResults_cons, if_pos hip, hConsR]
      simp [ih]
    | error e =>
      have hsi : scanItem scan u = ⟨none, "error", u, some e⟩ := by
        unfold scanItem
        rw [hu]
      have hConsR : List.filterMap (fun u => (scan u).toOption) (u :: t) =
          List.filterMap (fun u => (scan u).toOption) t :=
        List.filterMap_cons_none (by show (scan u).toOption = none; rw [hu]; rfl)
      rw [List.map_cons, hsi, validResults_cons, if_neg (by simp), hConsR]
      exact ih

/-- C9: scan_bulk produces one record per URL; a URL whose scan fails becomes
a per-item record with label "error", overall_score none and the error
message, while the records of its sibling URLs are unchanged; and every
summary statistic (scanned count, error count, the safe / suspicious /
dangerous distribution, average and highest score) is computed over the
successfully-scored subset only. -/
theorem C9_bulk_scan :
    ∀ (scan : String → Except String (ℤ × String)) (urls : List String),
      ((scan_bulk scan urls).2.length = urls.length) ∧
      (∀ (us vs : List String) (u : String) (e : String),
        urls = us ++ u :: vs → scan u = Except.error e →
        (scan_bulk scan urls).2 =
          (scan_bulk scan us).2 ++
            (⟨none, "error", u, some e⟩ : BulkItem) :: (scan_bulk scan vs).2) ∧
      ((scan_bulk scan urls).1.scanned =
        (urls.filterMap (fun u => (scan u).toOption)).length) ∧
      ((scan_bulk scan urls).1.errors =
        urls.length - (urls.filterMap (fun u => (scan u).toOption)).length) ∧
      ((scan_bulk scan urls).1.safe =
        ((urls.filterMap (fun u => (scan u).toOption)).filter
          (fun r => r.2 == "safe")).length) ∧
      ((scan_bulk scan urls).1.suspicious =
        ((urls.filterMap (fun u => (scan u).toOption)).filter
          (fun r => r.2 == "suspicious")).length) ∧
      ((scan_bulk scan urls).1.dangerous =
        ((urls.filterMap (fun u => (scan u).toOption)).filter
          (fun r => r.2 == "dangerous")).length) ∧
      ((scan_bulk scan urls).1.avg_score =
        if urls.filterMap (fun u => (scan u).toOption) = [] then 0
        else pyRound
          ((sumZ ((urls.filterMap (fun u => (scan u).toOption)).map (·.1)) : ℚ) /
            ((urls.filterMap (fun u => (scan u).toOption)).length : ℚ))) ∧
      ((scan_bulk scan urls).1.highest_risk =
        pyMaxD ((urls.filterMap (fun u => (scan u).toOption)).map (·.1)) 0) := by
  intro scan urls
  refine ⟨by simp [scan_bulk], ?_, ?_, ?_,
    bulk_label_count_eq scan "safe" urls, bulk_label_count_eq scan "suspicious" urls,
    bulk_label_count_eq scan "dangerous" urls, ?_, ?_⟩
  · intro us vs u e hurls hu
    subst hurls
    simp [scan_bulk, List.map_append, scanItem, hu]
  · exact bulk_valid_len_eq scan urls
  · simp [scan_bulk, bulkSummaryOf, bulk_valid_len_eq scan urls]
  · show (if validResults (urls.map (scanItem scan)) = [] then 0
        else pyRound
          ((sumZ ((validResults (urls.map (scanItem scan))).filterMap (·.overall_score)) : ℚ) /
            ((validResults (urls.map (scanItem scan))).length : ℚ))) = _
    by_cases hv : validResults (urls.map (scanItem scan)) = []
    · have hv2 : urls.filterMap (fun u => (scan u).toOption) = [] := by
        rw [← List.length_eq_zero, ← bulk_valid_len_eq scan urls, hv]
        rfl
      rw [if_pos hv, if_pos hv2]
    · have hv2 : ¬(urls.filterMap (fun u => (scan u).toOption) = []) := by
        intro h0
        apply hv
        rw [← List.length_eq_zero, bulk_valid_len_eq scan urls, h0]
        rfl
      rw [if_neg hv, if_neg hv2, bulk_scores_eq scan urls, bulk_valid_len_eq scan urls]
  · show pyMaxD ((validResults (urls.map (scanItem scan))).filterMap (·.overall_score)) 0 = _
    rw [bulk_scores_eq scan urls]

/-- Witness for C9: a two-URL batch where the second URL fails is itself the
record list of the first batch, then the error record, then the records of the
empty remainder. -/
theorem C9_bulk_scan_witness :
    ((fun u => if u == "bad" then Except.error "boom"
        else Except.ok ((0 : ℤ), "safe")) "bad" = Except.error "boom") ∧
    (scan_bulk (fun u => if u == "bad" then Except.error "boom"
        else Except.ok ((0 : ℤ), "safe")) ["good", "bad"]).2 =
      (scan_bulk (fun u => if u == "bad" then Except.error "boom"
        else Except.ok ((0 : ℤ), "safe")) ["good"]).2 ++
        (⟨none, "error", "bad", some "boom"⟩ : BulkItem) ::
          (scan_bulk (fun u => if u == "bad" then Except.error "boom"
            else Except.ok ((0 : ℤ), "safe")) []).2 :=
  ⟨rfl, (C9_bulk_scan _ ["good", "bad"]).2.1 ["good"] [] "bad" "boom" rfl rfl⟩

/-! ## C10: severity bucketing in the responses -/

/-- C10: both the URL-scan and the email-scan response builders bucket every
detected indicator numeric severity with the same fixed thresholds:
"high" iff severity is at least 0.7, "medium" iff it is at least 0.4 and
below 0.7, and "low" otherwise. -/
theorem C10_severity_buckets :
    (∀ s : ℚ,
      (severityBucket s = "high" ↔ 7/10 ≤ s) ∧
      (severityBucket s = "medium" ↔ 4/10 ≤ s ∧ s < 7/10) ∧
      (severityBucket s = "low" ↔ s < 4/10)) ∧
    (∀ inds : List Indicator,
      build_detected_indicators inds =
        (detectedOf inds).map
          (fun i => ⟨i.name, severityBucket i.severity, i.explanation⟩)) ∧
    (∀ (inds : List Indicator) (r : ReportedIndicator),
      r ∈ build_detected_indicators inds →
        ∃ i ∈ inds, i.detected = true ∧
          r = ⟨i.name, severityBucket i.severity, i.explanation⟩) ∧
    (∀ (inds : List Indicator) (seen : List String) (r : ReportedIndicator),
      r ∈ build_detected_indicators_email seen inds →
        ∃ i ∈ inds, i.detected = true ∧
          r = ⟨i.name, severityBucket i.severity, i.explanation⟩) := by
  refine ⟨?_, fun inds => rfl, ?_, ?_⟩
  · intro s
    unfold severityBucket
    split_ifs with h1 h2
    · exact ⟨⟨fun _ => h1, fun _ => rfl⟩,
        ⟨fun h => absurd h (by decide), fun h => absurd h.2 (by linarith)⟩,
        ⟨fun h => absurd h (by decide), fun h => absurd h (by linarith)⟩⟩
    · push_neg at h1
      exact ⟨⟨fun h => absurd h (by decide), fun h => absurd h (by linarith)⟩,
        ⟨fun _ => ⟨h2, h1⟩, fun _ => rfl⟩,
        ⟨fun h => absurd h (by decide), fun h => absurd h (by linarith)⟩⟩
    · push_neg at h1 h2
      exact ⟨⟨fun h => absurd h (by decide), fun h => absurd h (by linarith)⟩,
        ⟨fun h => absurd h (by decide), fun h => absurd h.1 (by linarith)⟩,
        ⟨fun _ => h2, fun _ => rfl⟩⟩
  · intro inds r h
    unfold build_detected_indicators detectedOf at h
    simp only [List.mem_map, List.mem_filter] at h
    rcases h with ⟨i, ⟨hmem, hdet⟩, rfl⟩
    exact ⟨i, hmem, hdet, rfl⟩
  · intro inds
    induction inds with
    | nil =>
      intro seen r h
      simp [build_detected_indicators_email] at h
    | cons i t ih =>
      intro seen r h
      unfold build_detected_indicators_email at h
      by_cases hc : (i.detected && !(seen.contains i.name)) = true
      · rw [if_pos hc] at h
        rcases List.mem_cons.mp h with rfl | h2
        · exact ⟨i, List.mem_cons_self i t, (Bool.and_eq_true_iff.mp hc).1, rfl⟩
        · obtain ⟨j, hj, hd, hr⟩ := ih (i.name :: seen) r h2
          exact ⟨j, List.mem_cons_of_mem i hj, hd, hr⟩
      · rw [if_neg hc] at h
        obtain ⟨j, hj, hd, hr⟩ := ih seen r h
        exact ⟨j, List.mem_cons_of_mem i hj, hd, hr⟩

/-- Witness for C10: the reported record of a detected severity-1 indicator
is the bucketing of one of the input indicators. -/
theorem C10_severity_buckets_witness :
    ((⟨"X", "high", "e"⟩ : ReportedIndicator) ∈
      build_detected_indicators [⟨"X", true, 1, "e"⟩]) ∧
    (∃ i ∈ [(⟨"X", true, 1, "e"⟩ : Indicator)], i.detected = true ∧
      (⟨"X", "high", "e"⟩ : ReportedIndicator) =
        ⟨i.name, severityBucket i.severity, i.explanation⟩) := by
  have hmem : (⟨"X", "high", "e"⟩ : ReportedIndicator) ∈
      build_detected_indicators [⟨"X", true, 1, "e"⟩] := by
    rw [show build_detected_indicators [⟨"X", true, 1, "e"⟩] =
        [⟨"X", severityBucket 1, "e"⟩] from rfl,
      show severityBucket 1 = "high" by norm_num [severityBucket]]
    exact List.mem_singleton.mpr rfl
  exact ⟨hmem,
    C10_severity_buckets.2.2.1 [⟨"X", true, 1, "e"⟩] ⟨"X", "high", "e"⟩ hmem⟩

end RiskAnalyzer
